import Mathlib

/-!
Verification development for the `onlock` one-time-secret wrapper service
(`src/runtime/wrapper/app.py`): a shallow embedding of the two Chalice
handlers (`v1_wrapper_post`, `v1_wrapper_get`) over an explicit key-value
store modelling the DynamoDB table, together with proofs of the testable
properties of the specification.

Conventions of the embedding:
- Machine-level details (HTTP framing, logging, headers) are dropped;
  response bodies are modelled by the `Resp` structure.
- Python exceptions are modelled by explicit branches: every place where
  the source code can raise (`TypeError` or `OverflowError` in the
  `timedelta`/`datetime` arithmetic, `KeyError` on a missing attribute,
  a boto3 parameter error) becomes a branch returning the response that
  the enclosing `except` handler produces.
- `datetime.utcnow()` is a `Nat` of epoch seconds (the Lambda runtime is
  UTC, so `strftime('%s')` renders exactly that instant); rendering and
  parsing of decimal integers (Python `str`/`int`) are `intToDec` and
  `parseInt` below.
- The randomness of `uuid.uuid4()` is an explicit 128-bit `Nat` argument.
-/

/-- Decimal rendering of a natural number, least significant digit last,
with explicit fuel so the recursion is structural (the fuel `n + 1` always
suffices since `n / 10 < n`). Models Python `str` on a non-negative int. -/
def natToDecFuel : Nat → Nat → List Char
  | 0, _ => []
  | f + 1, n =>
    if n < 10 then [Nat.digitChar n]
    else natToDecFuel f (n / 10) ++ [Nat.digitChar (n % 10)]

/-- Decimal rendering of a natural number as a string (Python `str(n)`). -/
def natToDec (n : Nat) : String := ⟨natToDecFuel (n + 1) n⟩

/-- Decimal rendering of an integer (Python `str(i)`). -/
def intToDec (i : Int) : String :=
  if i < 0 then "-" ++ natToDec i.natAbs else natToDec i.toNat

/-- Accumulator pass of decimal parsing: consumes digits, fails on any
non-digit character. -/
def decToNatAux : List Char → Nat → Option Nat
  | [], acc => some acc
  | c :: cs, acc =>
    if c.isDigit then decToNatAux cs (acc * 10 + (c.toNat - 48)) else none

/-- Parse a non-empty all-digit character list as a natural number. -/
def decToNat? : List Char → Option Nat
  | [] => none
  | c :: cs => decToNatAux (c :: cs) 0

/-- Character-level body of `parseInt`: optional sign followed by
decimal digits. -/
def parseIntChars : List Char → Option Int
  | [] => none
  | c :: cs =>
    if c = '-' then (decToNat? cs).map (fun n => -(n : Int))
    else if c = '+' then (decToNat? cs).map (fun n => (n : Int))
    else (decToNat? (c :: cs)).map (fun n => (n : Int))

/-- Python `int(s)` on a string, restricted to an optional sign followed
by decimal digits; the empty string, `"60.5"`, letters — anything else —
raises `ValueError`, modelled as `none`. Simplification: Python
additionally strips surrounding whitespace and allows digit-group
underscores, which this model rejects. No DynamoDB `N` value contains
such spellings; for a ttl spelled that way (necessarily a JSON string,
e.g. `" 60 "`) the model reports a ttl validation error while the
program passes validation and then hits the string-`TypeError` branch —
a different failure body inside the same 200/"failed" envelope. -/
def parseInt (s : String) : Option Int :=
  parseIntChars s.toList

/-- A DynamoDB attribute value: string (`{'S': ...}`) or number
(`{'N': ...}`, a decimal rendered as a string on the wire). -/
inductive AttrVal
  | S (s : String)
  | N (n : String)
deriving DecidableEq

/-- One stored item of the wrapper table, besides its partition key `id`
(which equals the key it is stored under): the `value` and `ttl`
attributes written by `v1_wrapper_post`. The table is external, so a
record may in principle hold attribute values of unexpected shapes. -/
structure Item where
  value : AttrVal
  ttl : AttrVal
deriving DecidableEq

/-- The DynamoDB wrapper table, keyed by `id` (partition key per the CDK
stack); modelled as an association list whose first match is the item. -/
abbrev Store := List (String × Item)

/-- Key lookup (first match). -/
def Store.get (s : Store) (k : String) : Option Item :=
  (s.find? (fun kv => kv.1 == k)).map (fun kv => kv.2)

/-- Remove every binding of key `k`. -/
def Store.del (s : Store) (k : String) : Store :=
  s.filter (fun kv => !(kv.1 == k))

/-- `put_item`: DynamoDB unconditionally overwrites the item under `k`. -/
def Store.put (s : Store) (k : String) (it : Item) : Store :=
  (k, it) :: Store.del s k

/-- Lines 193-197 of `app.py`: `delete_item(..., ReturnValues='ALL_OLD')`,
the gateway's atomic delete-returning-old-value primitive. One invocation
is a single atomic step of the backend. -/
def retrieve_and_delete (s : Store) (id : String) : Option Item × Store :=
  (Store.get s id, Store.del s id)

/-- Modelled from the spec: the backend's native time-to-live purge is
external to the repository (DynamoDB reaps items on its own schedule).
Following §3, a record is visible iff `now < expire_at`; items whose
`ttl` attribute is not a parseable number are never purged. -/
def Item.alive (now : Int) (it : Item) : Bool :=
  match it.ttl with
  | AttrVal.N nstr =>
    match parseInt nstr with
    | some e => decide (now < e)
    | none => true
  | _ => true

/-- Modelled from the spec: passive expiry — the state of the table after
the backend has reaped the items expired at instant `now`. -/
def Store.purge (now : Int) (s : Store) : Store :=
  s.filter (fun kv => Item.alive now kv.2)

/-- ASCII alphanumeric, the character class `[a-zA-Z0-9]`. -/
def isAlnumA (c : Char) : Bool := c.isAlpha || c.isDigit

/-- `WrapperId.validate_id` (lines 42-46): the id is rejected iff
`re.search('[^a-zA-Z0-9]+', v)` finds a non-alphanumeric character, i.e.
it is accepted iff every character is alphanumeric (any length, the empty
string included). -/
def idValid (s : String) : Bool := s.toList.all isAlnumA

/-- A raw JSON scalar as it arrives in `request.json_body`: the claims
only concern string and integer payload fields. -/
inductive JVal
  | jstr (s : String)
  | jnum (n : Int)
deriving DecidableEq

/-- pydantic v1 coercion of a raw JSON scalar to a `str` field:
strings pass through, numbers are rendered by `str(...)`. -/
def JVal.coerceStr : JVal → String
  | JVal.jstr s => s
  | JVal.jnum n => intToDec n

/-- The JSON body of a POST request: the `value` and `ttl` members, each
possibly absent. -/
structure PostReq where
  value : Option JVal
  ttl : Option JVal
deriving DecidableEq

/-- `WrapperIn(**request.json_body)` (lines 28-35, 50-51): pydantic
collects one error per failing field, in field-declaration order
(`ttl` from `WrapperTtl`, then `value`). The `ttl` field must be present,
coerce to a string that `int(...)` parses, and satisfy `¬ int(v) < 30`;
the `value` field must be present (any scalar coerces to `str`).
The returned list holds the names of the failing fields. -/
def wrapperIn_errors (r : PostReq) : List String :=
  (match r.ttl with
   | none => ["ttl"]
   | some jv =>
     match parseInt jv.coerceStr with
     | none => ["ttl"]
     | some n => if n < 30 then ["ttl"] else [])
  ++ (match r.value with
      | none => ["value"]
      | some _ => [])

/-- The response data member: `{"id", "expire"}` from POST, or
`{"id", "value", "expire"}` from GET. -/
inductive RData
  | post (id : String) (expire : Int)
  | get (id : String) (value : String) (expire : Int)
deriving DecidableEq

/-- The detail of a failure response: a pydantic validation error naming
the offending fields, or a plain message string. -/
inductive ErrDetail
  | validation (fields : List String)
  | message (msg : String)
deriving DecidableEq

/-- A handler response: HTTP status code plus the JSON envelope
(`status`, optional `error`, optional `data`, `ref`). -/
structure Resp where
  statusCode : Nat
  status : String
  error : Option ErrDetail
  data : Option RData
  ref : String
deriving DecidableEq

/-- A pydantic-validation failure response (status code 200). -/
def validationResp (fields : List String) (rid : String) : Resp :=
  ⟨200, "failed", some (ErrDetail.validation fields), none, rid⟩

/-- The not-found failure response of the GET handler (lines 200-210). -/
def notFoundResp (rid : String) : Resp :=
  ⟨200, "failed", some (ErrDetail.message "wrapper id not found or expired"), none, rid⟩

/-- The catch-all internal-error response. The GET handler's catch-all
(lines 244-250) omits the explicit `status_code` argument; Chalice's
`Response` defaults it to 200, so both handlers produce 200 here. -/
def internalResp (rid : String) : Resp :=
  ⟨200, "failed", some (ErrDetail.message "internal error"), none, rid⟩

/-- A success response carrying the data member. -/
def successResp (d : RData) (rid : String) : Resp :=
  ⟨200, "success", none, some d, rid⟩

/-- The 32 lowercase hex digits of a 128-bit value, most significant
first: the `'%032x'` rendering underlying `str(uuid.UUID(int=u))`. -/
def hexDigits32 (u : Nat) : List Char :=
  (List.range 32).map (fun i => Nat.digitChar (u / 16 ^ (31 - i) % 16))

/-- `str(uuid.uuid4())` for the 128-bit value `u`: the canonical 8-4-4-4-12
dashed form of the 32 hex digits. -/
def uuid4_str (u : Nat) : List Char :=
  (hexDigits32 u).take 8 ++ '-' ::
  (((hexDigits32 u).drop 8).take 4 ++ '-' ::
  ((((hexDigits32 u).drop 8).drop 4).take 4 ++ '-' ::
  (((((hexDigits32 u).drop 8).drop 4).drop 4).take 4 ++ '-' ::
  ((((hexDigits32 u).drop 8).drop 4).drop 4).drop 4)))

/-- `random_id` (lines 72-75): `str(uuid.uuid4()).replace("-", "")`,
i.e. the dashed rendering with every `'-'` removed. The 128-bit
randomness of `uuid4` is the explicit argument `u`. -/
def random_id (u : Nat) : String :=
  ⟨(uuid4_str u).filter (fun c => c ≠ '-')⟩

/-- Whether `datetime.utcnow() + timedelta(seconds=t)` (line 117)
evaluates without raising `OverflowError`, in epoch seconds. Two bounds
apply, in evaluation order:
- `timedelta(seconds=t)` requires its normalized day count within
  ±999999999 days: `-999999999 * 86400 ≤ t` and
  `t ≤ 999999999 * 86400 + 86399`;
- the sum must lie within `datetime.min .. datetime.max` (year 1 to
  9999): `-62135596800 ≤ now + t ≤ 253402300799`
  (`0001-01-01T00:00:00Z` and `9999-12-31T23:59:59Z`).
Either failure raises `OverflowError`, caught by the handler's
catch-all exactly like the other faults. -/
def expireComputable (now : Nat) (t : Int) : Bool :=
  decide (-86399999913600 ≤ t) && decide (t ≤ 86399999999999) &&
    decide (-62135596800 ≤ (now : Int) + t) &&
    decide ((now : Int) + t ≤ 253402300799)

/-- `v1_wrapper_post` (lines 85-168) as a function of the request body,
the table state, the current time `now` (epoch seconds, UTC), the uuid4
randomness `u`, and the platform request id. Returns the response body
and the resulting table state.

Branches, in source order:
- `WrapperIn` validation failure → validation response, store untouched;
- `request.json_body['ttl']` not a number → `TypeError` inside
  `timedelta(seconds=...)`, caught by the catch-all → internal error,
  store untouched (the write at line 139 is never reached);
- a numeric ttl for which `timedelta(seconds=...)` or the `datetime`
  addition overflows (`expireComputable` false) → `OverflowError` at
  line 117, caught by the catch-all → internal error, store untouched;
- `WrapperPostOut` validation (re-parsing `expire`, re-checking the id)
  failing → the explicit internal-error response of lines 127-137;
- `put_item` with a non-string `value` → boto3 parameter error, caught
  by the catch-all → internal error, store untouched;
- otherwise the item is written and the success response carries
  `{id, expire}`. -/
def v1_wrapper_post (req : PostReq) (s : Store) (now : Nat) (u : Nat)
    (request_id : String) : Resp × Store :=
  match wrapperIn_errors req with
  | e :: es => (validationResp (e :: es) request_id, s)
  | [] =>
    let wrap_id := random_id u
    match req.ttl with
    | some (JVal.jnum t) =>
      if expireComputable now t then
        let expire : Int := (now : Int) + t
        let expireStr := intToDec expire
        match parseInt expireStr, idValid wrap_id with
        | some e, true =>
          match req.value with
          | some (JVal.jstr v) =>
            (successResp (RData.post wrap_id e) request_id,
             Store.put s wrap_id ⟨AttrVal.S v, AttrVal.N expireStr⟩)
          | _ => (internalResp request_id, s)
        | _, _ => (internalResp request_id, s)
      else (internalResp request_id, s)
    | _ => (internalResp request_id, s)

/-- `v1_wrapper_get` (lines 171-250) as a function of the path parameter,
the table state and the platform request id.

Branches, in source order:
- `WrapperId` validation failure → validation response naming `id`,
  store untouched (no store operation before the check);
- atomic `delete_item` with `ReturnValues='ALL_OLD'`; no `Attributes`
  → the not-found response;
- extracting `Attributes['value']['S']` / `Attributes['ttl']['N']` from
  an item of the wrong shape → `KeyError`, caught by the catch-all →
  internal error;
- `WrapperGetOut` validation: pydantic re-checks `id` and coerces
  `expire` with `int(...)`, collecting failing fields in declaration
  order (`id`, `expire`; `value` is already a `str`) → on failure the
  handler returns the validation detail (lines 220-230);
- otherwise the success response carries `{id, value, expire}`. -/
def v1_wrapper_get (wrap_id : String) (s : Store) (request_id : String) :
    Resp × Store :=
  if idValid wrap_id = false then
    (validationResp ["id"] request_id, s)
  else
    let r := retrieve_and_delete s wrap_id
    match r.1 with
    | none => (notFoundResp request_id, r.2)
    | some it =>
      match it.value, it.ttl with
      | AttrVal.S v, AttrVal.N nstr =>
        match parseInt nstr, idValid wrap_id with
        | some e, true =>
          (successResp (RData.get wrap_id v e) request_id, r.2)
        | some _, false => (validationResp ["id"] request_id, r.2)
        | none, true => (validationResp ["expire"] request_id, r.2)
        | none, false => (validationResp ["id", "expire"] request_id, r.2)
      | _, _ => (internalResp request_id, r.2)

/-- `n` sequential executions of the atomic `retrieve_and_delete` step on
the same id: since each backend call is a single atomic operation, any
interleaving of `n` concurrent retrievals is one such sequence. -/
def runRetrieves : Nat → Store → String → List (Option Item)
  | 0, _, _ => []
  | n + 1, s, id =>
    (retrieve_and_delete s id).1 ::
      runRetrieves n (retrieve_and_delete s id).2 id

theorem mkToList (l : List Char) : (⟨l⟩ : String).toList = l := rfl

theorem digitChar_isDigit {m : Nat} (h : m < 10) :
    (Nat.digitChar m).isDigit = true := by
  interval_cases m <;> decide

theorem digitChar_toNat {m : Nat} (h : m < 10) :
    (Nat.digitChar m).toNat - 48 = m := by
  interval_cases m <;> decide

theorem digitChar_alnum {m : Nat} (h : m < 16) :
    isAlnumA (Nat.digitChar m) = true := by
  interval_cases m <;> decide

theorem isDigit_ne_dash {c : Char} (h : c.isDigit = true) : ¬ (c = '-') :=
  fun he => absurd h (by subst he; decide)

theorem isDigit_ne_plus {c : Char} (h : c.isDigit = true) : ¬ (c = '+') :=
  fun he => absurd h (by subst he; decide)

theorem isAlnumA_ne_dash {c : Char} (h : isAlnumA c = true) :
    decide (c ≠ '-') = true := by
  rcases Decidable.em (c = '-') with he | he
  · exact absurd h (by subst he; decide)
  · simpa using he

theorem decToNatAux_append (xs ys : List Char) (acc : Nat) :
    decToNatAux (xs ++ ys) acc
      = (decToNatAux xs acc).bind (fun a => decToNatAux ys a) := by
  induction xs generalizing acc with
  | nil => simp [decToNatAux]
  | cons c cs ih =>
    by_cases hc : c.isDigit <;> simp [decToNatAux, hc, ih]

theorem decToNatAux_natToDecFuel (f : Nat) :
    ∀ n acc, n < f →
      decToNatAux (natToDecFuel f n) acc
        = some (acc * 10 ^ (natToDecFuel f n).length + n) := by
  induction f with
  | zero => intro n acc h; omega
  | succ f ih =>
    intro n acc h
    by_cases hn : n < 10
    · simp [natToDecFuel, hn, decToNatAux, digitChar_isDigit hn,
        digitChar_toNat hn]
    · have hpos : 0 < n := by omega
      have hdiv : n / 10 < f := by
        have h1 : n / 10 < n := Nat.div_lt_self hpos (by omega)
        omega
      have hm : n % 10 < 10 := Nat.mod_lt _ (by omega)
      simp only [natToDecFuel, if_neg hn]
      rw [decToNatAux_append, ih (n / 10) acc hdiv]
      simp only [Option.some_bind, decToNatAux, digitChar_isDigit hm,
        if_pos, digitChar_toNat hm, List.length_append, List.length_cons,
        List.length_nil]
      have key : ∀ Q : Nat, (Q + n / 10) * 10 + n % 10 = Q * 10 + n := by
        intro Q; omega
      rw [key]
      congr 1
      have hexp : (natToDecFuel f (n / 10)).length + (0 + 1)
          = (natToDecFuel f (n / 10)).length + 1 := by omega
      rw [hexp, pow_succ]
      ring

theorem natToDecFuel_ne_nil (f n : Nat) (h : 0 < f) :
    natToDecFuel f n ≠ [] := by
  cases f with
  | zero => omega
  | succ f => by_cases hn : n < 10 <;> simp [natToDecFuel, hn]

theorem natToDecFuel_all_digit (f : Nat) :
    ∀ n, (natToDecFuel f n).all Char.isDigit = true := by
  induction f with
  | zero => intro n; rfl
  | succ f ih =>
    intro n
    by_cases hn : n < 10
    · simp [natToDecFuel, hn, digitChar_isDigit hn]
    · have hm : n % 10 < 10 := Nat.mod_lt _ (by omega)
      simp [natToDecFuel, hn, List.all_append, ih, digitChar_isDigit hm]

theorem decToNat?_natToDecFuel (f n : Nat) (h : n < f) :
    decToNat? (natToDecFuel f n) = some n := by
  cases hl : natToDecFuel f n with
  | nil => exact absurd hl (natToDecFuel_ne_nil f n (by omega))
  | cons c cs =>
    have hx := decToNatAux_natToDecFuel f n 0 h
    rw [hl] at hx
    simpa [decToNat?] using hx

theorem parseInt_natToDec (n : Nat) : parseInt (natToDec n) = some (n : Int) := by
  unfold parseInt natToDec
  rw [mkToList]
  cases hl : natToDecFuel (n + 1) n with
  | nil => exact absurd hl (natToDecFuel_ne_nil _ _ (by omega))
  | cons c cs =>
    have hall := natToDecFuel_all_digit (n + 1) n
    rw [hl] at hall
    simp only [List.all_cons, Bool.and_eq_true] at hall
    have hd : c.isDigit = true := hall.1
    rw [parseIntChars]
    simp only [if_neg (isDigit_ne_dash hd), if_neg (isDigit_ne_plus hd)]
    rw [← hl, decToNat?_natToDecFuel (n + 1) n (by omega)]
    rfl

theorem parseInt_intToDec_of_nonneg (i : Int) (h : 0 ≤ i) :
    parseInt (intToDec i) = some i := by
  unfold intToDec
  rw [if_neg (by omega), parseInt_natToDec, Int.toNat_of_nonneg h]

theorem Store.get_del (s : Store) (k : String) :
    Store.get (Store.del s k) k = none := by
  induction s with
  | nil => rfl
  | cons kv s ih =>
    by_cases hk : kv.1 == k
    · rw [show Store.del (kv :: s) k = Store.del s k by
        simp [Store.del, List.filter_cons, hk]]
      exact ih
    · simp only [Bool.not_eq_true] at hk
      rw [show Store.del (kv :: s) k = kv :: Store.del s k by
        simp [Store.del, List.filter_cons, hk]]
      rw [show Store.get (kv :: Store.del s k) k
          = Store.get (Store.del s k) k by
        simp [Store.get, List.find?_cons, hk]]
      exact ih

theorem Store.del_of_get_none (s : Store) (k : String)
    (h : Store.get s k = none) : Store.del s k = s := by
  have h2 : s.find? (fun kv => kv.1 == k) = none := by
    cases hf : s.find? (fun kv => kv.1 == k) with
    | none => rfl
    | some kv => rw [Store.get, hf] at h; simp at h
  have h3 := List.find?_eq_none.mp h2
  apply List.filter_eq_self.mpr
  intro a ha
  simpa using h3 a ha

theorem Store.get_put (s : Store) (k : String) (it : Item) :
    Store.get (Store.put s k it) k = some it := by
  simp [Store.get, Store.put, List.find?_cons]

theorem runRetrieves_of_get_none (n : Nat) (s : Store) (id : String)
    (h : Store.get s id = none) :
    runRetrieves n s id = List.replicate n none := by
  induction n generalizing s with
  | zero => rfl
  | succ n ih =>
    simp only [runRetrieves, retrieve_and_delete, h, List.replicate_succ,
      List.cons.injEq, true_and]
    exact ih _ (Store.get_del s id)

theorem hexDigits32_length (u : Nat) : (hexDigits32 u).length = 32 := by
  simp [hexDigits32]

theorem hexDigits32_all_alnum (u : Nat) :
    ∀ c ∈ hexDigits32 u, isAlnumA c = true := by
  intro c hc
  simp only [hexDigits32, List.mem_map] at hc
  obtain ⟨i, _, rfl⟩ := hc
  exact digitChar_alnum (Nat.mod_lt _ (by omega))

theorem random_id_eq_hexDigits32 (u : Nat) :
    random_id u = ⟨hexDigits32 u⟩ := by
  unfold random_id uuid4_str
  congr 1
  have hmem : ∀ (l : List Char), (∀ c ∈ l, c ∈ hexDigits32 u) →
      l.filter (fun c => decide (c ≠ '-')) = l := by
    intro l hl
    exact List.filter_eq_self.mpr
      (fun c hc => isAlnumA_ne_dash (hexDigits32_all_alnum u c (hl c hc)))
  rw [List.filter_append, List.filter_cons]
  rw [List.filter_append, List.filter_cons]
  rw [List.filter_append, List.filter_cons]
  rw [List.filter_append, List.filter_cons]
  rw [if_neg (by decide), if_neg (by decide), if_neg (by decide),
    if_neg (by decide)]
  rw [hmem _ (fun c hc => List.mem_of_mem_take hc)]
  rw [hmem _ (fun c hc =>
    List.mem_of_mem_drop (List.mem_of_mem_take hc))]
  rw [hmem _ (fun c hc =>
    List.mem_of_mem_drop (List.mem_of_mem_drop (List.mem_of_mem_take hc)))]
  rw [hmem _ (fun c hc =>
    List.mem_of_mem_drop (List.mem_of_mem_drop
      (List.mem_of_mem_drop (List.mem_of_mem_take hc))))]
  rw [hmem _ (fun c hc =>
    List.mem_of_mem_drop (List.mem_of_mem_drop
      (List.mem_of_mem_drop (List.mem_of_mem_drop hc))))]
  rw [List.take_append_drop, List.take_append_drop, List.take_append_drop,
    List.take_append_drop]

theorem random_id_toList (u : Nat) :
    (random_id u).toList = hexDigits32 u := by
  rw [random_id_eq_hexDigits32, mkToList]

theorem idValid_random_id (u : Nat) : idValid (random_id u) = true := by
  rw [idValid, random_id_toList, List.all_eq_true]
  exact hexDigits32_all_alnum u

/-- C9: for every invocation (i.e. every 128-bit uuid4 value `u`), the
server-generated identifier `random_id u` is a fixed-length token of 32
characters, each in `[A-Za-z0-9]` (a 32-hex rendering of the 128-bit
value with the dashes removed). -/
theorem random_id_fixed_length_alphanumeric (u : Nat) :
    (random_id u).length = 32 ∧
      (random_id u).toList.all isAlnumA = true := by
  constructor
  · rw [random_id_eq_hexDigits32]
    show (hexDigits32 u).length = 32
    exact hexDigits32_length u
  · rw [random_id_toList, List.all_eq_true]
    exact hexDigits32_all_alnum u

/-- C5: for every id containing a character outside `[A-Za-z0-9]`
(i.e. failing `WrapperId` validation), the GET handler returns a
validation error naming the `id` field and the store is returned
unchanged — the `delete_item` call is never reached. -/
theorem invalid_id_rejected_store_unchanged (id : String) (s : Store)
    (rid : String) (h : idValid id = false) :
    v1_wrapper_get id s rid = (validationResp ["id"] rid, s) := by
  rw [v1_wrapper_get, if_pos h]

theorem invalid_id_rejected_store_unchanged_witness :
    idValid "a!" = false ∧
      v1_wrapper_get "a!" [] "r" = (validationResp ["id"] "r", []) :=
  ⟨by decide, invalid_id_rejected_store_unchanged "a!" [] "r" (by decide)⟩

/-- C10: id validation accepts any string whose characters are all
alphanumeric regardless of its length — the empty string included — so a
retrieve with such an id reaches the store and, when the id is absent,
yields the not-found response (with the store left as it was) rather
than a malformed-id rejection. -/
theorem alnum_id_any_length_passes_to_store (id : String) (s : Store)
    (rid : String) (h1 : id.toList.all isAlnumA = true)
    (h2 : Store.get s id = none) :
    idValid id = true ∧ v1_wrapper_get id s rid = (notFoundResp rid, s) := by
  have hv : idValid id = true := h1
  refine ⟨hv, ?_⟩
  rw [v1_wrapper_get, if_neg (by simp [hv])]
  simp only [retrieve_and_delete, h2]
  rw [Store.del_of_get_none s id h2]

theorem alnum_id_any_length_passes_to_store_witness :
    ("" : String).toList.all isAlnumA = true ∧
      Store.get [] "" = none ∧ idValid "" = true ∧
      v1_wrapper_get "" [] "r" = (notFoundResp "r", []) := by
  have h := alnum_id_any_length_passes_to_store "" [] "r" (by decide) (by decide)
  exact ⟨by decide, by decide, h.1, h.2⟩

/-- C4: the spec promises that create succeeds for every `ttl >= 30`
supplied "as string or number", and its worked example posts
`{"value":"s3cr3t","ttl":"60"}` expecting success; but for a string ttl
the handler evaluates `timedelta(seconds="60")`, which raises
`TypeError`, caught by the catch-all — so the code answers the generic
internal error instead (first conjunct). The numeric form does succeed
(second conjunct) and `ttl < 30` is rejected naming the `ttl` field
(third conjunct). -/
theorem create_string_ttl_internal_error_bug :
    (v1_wrapper_post ⟨some (JVal.jstr "s3cr3t"), some (JVal.jstr "60")⟩
        [] 1000 0 "r").1 = internalResp "r" ∧
      (v1_wrapper_post ⟨some (JVal.jstr "s3cr3t"), some (JVal.jnum 60)⟩
          [] 1000 0 "r").1
        = successResp (RData.post (random_id 0) 1060) "r" ∧
      (v1_wrapper_post ⟨some (JVal.jstr "s3cr3t"), some (JVal.jnum 10)⟩
          [] 1000 0 "r").1 = validationResp ["ttl"] "r" :=
  ⟨by decide, by decide, by decide⟩

/-- C8: the spec promises every unexpected fault — backend
unavailability or an unexpected shape of a stored record — is reported
as the generic `"internal error"`. But a stored record whose `ttl`
attribute is a non-integer number (`{'N': "60.5"}`, a value DynamoDB
accepts) makes `WrapperGetOut` validation fail, and the GET handler's
`except pydantic.ValidationError` branch (lines 220-230) answers with
the pydantic validation detail naming the internal `expire` field — not
the generic message its POST counterpart (lines 127-137) uses. -/
theorem get_bad_record_shape_leaks_validation_detail :
    (v1_wrapper_get "abcd" [("abcd", ⟨AttrVal.S "v", AttrVal.N "60.5"⟩)]
        "r").1 = validationResp ["expire"] "r" ∧
      (v1_wrapper_get "abcd" [("abcd", ⟨AttrVal.S "v", AttrVal.N "60.5"⟩)]
          "r").1 ≠ internalResp "r" :=
  ⟨by decide, by decide⟩

/-- C1: among `n` concurrent `retrieve_and_delete` calls on the same
stored id, exactly one observes a non-NotFound result, and it carries
the stored item; all others observe NotFound. Each backend
`delete_item(..., ReturnValues='ALL_OLD')` call is a single atomic
operation, so every interleaving of the `n` concurrent calls is exactly
a sequence of `n` such steps, which `runRetrieves` models. -/
theorem retrieve_exactly_one_winner (s : Store) (id : String) (it : Item)
    (n : Nat) (hs : Store.get s id = some it) (hn : 0 < n) :
    (runRetrieves n s id).length = n ∧
      (runRetrieves n s id).countP (fun r => r.isSome) = 1 ∧
      ∀ r ∈ runRetrieves n s id, r.isSome = true → r = some it := by
  obtain ⟨m, rfl⟩ : ∃ m, n = m + 1 := ⟨n - 1, by omega⟩
  have hrun : runRetrieves (m + 1) s id
      = some it :: List.replicate m none := by
    simp only [runRetrieves, retrieve_and_delete, hs, List.cons.injEq,
      true_and]
    exact runRetrieves_of_get_none m _ id (Store.get_del s id)
  rw [hrun]
  refine ⟨by simp, ?_, ?_⟩
  · rw [List.countP_cons]
    simp [List.countP_replicate]
  · intro r hr hsome
    rcases List.mem_cons.mp hr with h | h
    · exact h
    · rw [List.eq_of_mem_replicate h] at hsome
      cases hsome

theorem get_notFound_of_absent (id : String) (s : Store) (rid : String)
    (hv : idValid id = true) (h : Store.get s id = none) :
    v1_wrapper_get id s rid = (notFoundResp rid, Store.del s id) := by
  rw [v1_wrapper_get, if_neg (by simp [hv])]
  simp only [retrieve_and_delete, h]

theorem get_success_store (id : String) (s : Store) (rid : String)
    (hsucc : (v1_wrapper_get id s rid).1.status = "success") :
    (v1_wrapper_get id s rid).2 = Store.del s id ∧ idValid id = true := by
  by_cases hv : idValid id = true
  · refine ⟨?_, hv⟩
    rw [v1_wrapper_get, if_neg (by simp [hv])]
    simp only [retrieve_and_delete]
    repeat' split
    all_goals rfl
  · exfalso
    have hv2 : idValid id = false := by simpa using hv
    rw [v1_wrapper_get, if_pos hv2] at hsucc
    simp [validationResp] at hsucc

/-- C3: retrieval is destructive — after a successful GET the record is
gone, so a second GET on the same id is NotFound — and failure is
idempotent: a valid id that is absent from the store yields NotFound,
and retrieving it again still yields NotFound. -/
theorem retrieval_destructive_and_notfound_idempotent (s : Store)
    (id rid1 rid2 : String) :
    ((v1_wrapper_get id s rid1).1.status = "success" →
      (v1_wrapper_get id (v1_wrapper_get id s rid1).2 rid2).1
        = notFoundResp rid2) ∧
    (idValid id = true → Store.get s id = none →
      (v1_wrapper_get id s rid1).1 = notFoundResp rid1 ∧
      (v1_wrapper_get id (v1_wrapper_get id s rid1).2 rid2).1
        = notFoundResp rid2) := by
  constructor
  · intro hsucc
    obtain ⟨hst, hv⟩ := get_success_store id s rid1 hsucc
    rw [hst, get_notFound_of_absent id (Store.del s id) rid2 hv
      (Store.get_del s id)]
  · intro hv hg
    have h1 := get_notFound_of_absent id s rid1 hv hg
    refine ⟨by rw [h1], ?_⟩
    rw [h1]
    rw [get_notFound_of_absent id (Store.del s id) rid2 hv
      (Store.get_del s id)]

theorem retrieval_destructive_and_notfound_idempotent_witness :
    (v1_wrapper_get "ab" [("ab", ⟨AttrVal.S "v", AttrVal.N "100"⟩)]
        "r1").1.status = "success" ∧
      (v1_wrapper_get "ab"
          (v1_wrapper_get "ab" [("ab", ⟨AttrVal.S "v", AttrVal.N "100"⟩)]
            "r1").2 "r2").1 = notFoundResp "r2" ∧
      idValid "cd" = true ∧ Store.get [] "cd" = none ∧
      (v1_wrapper_get "cd" [] "r1").1 = notFoundResp "r1" := by
  refine ⟨by decide, ?_, by decide, by decide, ?_⟩
  · exact (retrieval_destructive_and_notfound_idempotent
      [("ab", ⟨AttrVal.S "v", AttrVal.N "100"⟩)] "ab" "r1" "r2").1 (by decide)
  · exact ((retrieval_destructive_and_notfound_idempotent
      [] "cd" "r1" "r2").2 (by decide) (by decide)).1

/-- C7: neither handler lets a fault escape unformatted: for every
request, the response has HTTP status code 200, a `status` field that is
either `"success"` or `"failed"`, and a `ref` field echoing the
request-correlation identifier. (The GET catch-all omits the explicit
`status_code` argument, but Chalice's `Response` defaults it to 200.) -/
theorem handlers_always_return_200_envelope :
    (∀ req s now u rid,
      (v1_wrapper_post req s now u rid).1.statusCode = 200 ∧
        ((v1_wrapper_post req s now u rid).1.status = "success" ∨
          (v1_wrapper_post req s now u rid).1.status = "failed") ∧
        (v1_wrapper_post req s now u rid).1.ref = rid) ∧
    (∀ id s rid,
      (v1_wrapper_get id s rid).1.statusCode = 200 ∧
        ((v1_wrapper_get id s rid).1.status = "success" ∨
          (v1_wrapper_get id s rid).1.status = "failed") ∧
        (v1_wrapper_get id s rid).1.ref = rid) := by
  constructor
  · intro req s now u rid
    unfold v1_wrapper_post
    dsimp only
    repeat' split
    all_goals
      simp [validationResp, internalResp, successResp, notFoundResp]
  · intro id s rid
    unfold v1_wrapper_get
    dsimp only
    repeat' split
    all_goals
      simp [validationResp, internalResp, successResp, notFoundResp]

theorem retrieve_exactly_one_winner_witness :
    (runRetrieves 3 [("ab", ⟨AttrVal.S "v", AttrVal.N "100"⟩)] "ab").length
        = 3 ∧
      (runRetrieves 3 [("ab", ⟨AttrVal.S "v", AttrVal.N "100"⟩)]
          "ab").countP (fun r => r.isSome) = 1 ∧
      ∀ r ∈ runRetrieves 3 [("ab", ⟨AttrVal.S "v", AttrVal.N "100"⟩)] "ab",
        r.isSome = true → r = some ⟨AttrVal.S "v", AttrVal.N "100"⟩ :=
  retrieve_exactly_one_winner [("ab", ⟨AttrVal.S "v", AttrVal.N "100"⟩)]
    "ab" ⟨AttrVal.S "v", AttrVal.N "100"⟩ 3 (by decide) (by decide)



/-- A numeric ttl large enough to overflow the `datetime` arithmetic
(here `10^12`, past `datetime.max`) passes validation but ends in the
catch-all: the program answers "internal error" and stores nothing. -/
theorem post_overflow_internal_error :
    v1_wrapper_post ⟨some (JVal.jstr "v"), some (JVal.jnum 1000000000000)⟩
        [] 1000 0 "r" = (internalResp "r", []) := by
  decide

theorem post_eval (V : String) (T : Int) (now u : Nat) (s : Store)
    (rid : String) (hT : 30 ≤ T) (hb : expireComputable now T = true) :
    v1_wrapper_post ⟨some (JVal.jstr V), some (JVal.jnum T)⟩ s now u rid
      = (successResp (RData.post (random_id u) ((now : Int) + T)) rid,
         Store.put s (random_id u)
           ⟨AttrVal.S V, AttrVal.N (intToDec ((now : Int) + T))⟩) := by
  have hnnT : (0 : Int) ≤ T := by omega
  have hnn : (0 : Int) ≤ (now : Int) + T := by
    have := Int.natCast_nonneg now
    omega
  have hec : wrapperIn_errors ⟨some (JVal.jstr V), some (JVal.jnum T)⟩
      = [] := by
    simp [wrapperIn_errors, JVal.coerceStr,
      parseInt_intToDec_of_nonneg T hnnT]
    omega
  rw [v1_wrapper_post]
  simp only [hec, hb]
  simp only [if_true, parseInt_intToDec_of_nonneg ((now : Int) + T) hnn,
    idValid_random_id]

/-- C6: for every successful create (a present string value and a
numeric ttl of at least 30), the returned `expire` field and the `ttl`
attribute stored with the record both equal the absolute expiry instant
`now + ttl` in epoch seconds, computed at creation time. A create
succeeds exactly when the value is a present string, the numeric ttl is
at least 30 and the `datetime` arithmetic at line 117 does not overflow
(`expireComputable`); a ttl so large it overflows ends in the catch-all
instead of a successful create. -/
theorem create_expire_eq_now_plus_ttl (V : String) (T : Int) (now u : Nat)
    (s : Store) (rid : String) (hT : 30 ≤ T)
    (hb : expireComputable now T = true) :
    (v1_wrapper_post ⟨some (JVal.jstr V), some (JVal.jnum T)⟩
        s now u rid).1
      = successResp (RData.post (random_id u) ((now : Int) + T)) rid ∧
    Store.get
        (v1_wrapper_post ⟨some (JVal.jstr V), some (JVal.jnum T)⟩
          s now u rid).2 (random_id u)
      = some ⟨AttrVal.S V, AttrVal.N (intToDec ((now : Int) + T))⟩ := by
  rw [post_eval V T now u s rid hT hb]
  exact ⟨rfl, Store.get_put s (random_id u) _⟩

theorem create_expire_eq_now_plus_ttl_witness :
    ((30 : Int) ≤ 60 ∧ expireComputable 1000 60 = true) ∧
      ((v1_wrapper_post ⟨some (JVal.jstr "s3cr3t"), some (JVal.jnum 60)⟩
          [] 1000 0 "r").1
        = successResp (RData.post (random_id 0) 1060) "r" ∧
      Store.get
          (v1_wrapper_post ⟨some (JVal.jstr "s3cr3t"),
            some (JVal.jnum 60)⟩ [] 1000 0 "r").2 (random_id 0)
        = some ⟨AttrVal.S "s3cr3t", AttrVal.N (intToDec 1060)⟩) :=
  ⟨⟨by decide, by decide⟩,
    create_expire_eq_now_plus_ttl "s3cr3t" 60 1000 0 [] "r" (by decide)
      (by decide)⟩

/-- C2: round-trip — a create with value `V` and numeric ttl `T ≥ 30`
whose expiry arithmetic does not overflow (`expireComputable`, i.e. a
create that returns an id at all) returns that fresh id and the expiry
instant `now + T`; a retrieve of the id before expiry (after any
backend purge at an instant `t < now + T`) returns the value `V` stored
verbatim and the same expiry instant the create returned. -/
theorem create_then_retrieve_roundtrip (V : String) (T : Int)
    (now u : Nat) (s : Store) (rid rid2 : String) (t : Int)
    (hT : 30 ≤ T) (hb : expireComputable now T = true)
    (ht : t < (now : Int) + T) :
    (v1_wrapper_post ⟨some (JVal.jstr V), some (JVal.jnum T)⟩
        s now u rid).1
      = successResp (RData.post (random_id u) ((now : Int) + T)) rid ∧
    (v1_wrapper_get (random_id u)
        (Store.purge t
          (v1_wrapper_post ⟨some (JVal.jstr V), some (JVal.jnum T)⟩
            s now u rid).2) rid2).1
      = successResp (RData.get (random_id u) V ((now : Int) + T)) rid2 := by
  have hnn : (0 : Int) ≤ (now : Int) + T := by
    have := Int.natCast_nonneg now
    omega
  rw [post_eval V T now u s rid hT hb]
  refine ⟨rfl, ?_⟩
  have halive :
      Item.alive t ⟨AttrVal.S V, AttrVal.N (intToDec ((now : Int) + T))⟩
        = true := by
    simp [Item.alive, parseInt_intToDec_of_nonneg ((now : Int) + T) hnn, ht]
  have hpur :
      Store.purge t (Store.put s (random_id u)
          ⟨AttrVal.S V, AttrVal.N (intToDec ((now : Int) + T))⟩)
        = (random_id u, ⟨AttrVal.S V, AttrVal.N (intToDec ((now : Int) + T))⟩)
            :: Store.purge t (Store.del s (random_id u)) := by
    simp [Store.purge, Store.put, List.filter_cons, halive]
  rw [hpur]
  rw [v1_wrapper_get, if_neg (by simp [idValid_random_id])]
  have hget :
      Store.get ((random_id u,
          (⟨AttrVal.S V, AttrVal.N (intToDec ((now : Int) + T))⟩ : Item))
            :: Store.purge t (Store.del s (random_id u))) (random_id u)
        = some ⟨AttrVal.S V, AttrVal.N (intToDec ((now : Int) + T))⟩ := by
    simp [Store.get, List.find?_cons]
  simp only [retrieve_and_delete, hget]
  simp only [parseInt_intToDec_of_nonneg ((now : Int) + T) hnn,
    idValid_random_id]

theorem create_then_retrieve_roundtrip_witness :
    ((30 : Int) ≤ 60 ∧ expireComputable 1000 60 = true ∧
        (1001 : Int) < (1000 : Nat) + 60) ∧
      ((v1_wrapper_post ⟨some (JVal.jstr "s3cr3t"), some (JVal.jnum 60)⟩
          [] 1000 0 "r1").1
        = successResp (RData.post (random_id 0) 1060) "r1" ∧
      (v1_wrapper_get (random_id 0)
          (Store.purge 1001
            (v1_wrapper_post ⟨some (JVal.jstr "s3cr3t"),
              some (JVal.jnum 60)⟩ [] 1000 0 "r1").2) "r2").1
        = successResp (RData.get (random_id 0) "s3cr3t" 1060) "r2") :=
  ⟨⟨by decide, by decide, by decide⟩,
    create_then_retrieve_roundtrip "s3cr3t" 60 1000 0 [] "r1" "r2" 1001
      (by decide) (by decide) (by decide)⟩
